import Mathlib

/-!
Shallow embedding of the cjtoolkit-structured-validator core
(rule primitives, error collector/store, typed wrappers) used to settle
the claims about the repository.

Conventions of the embedding:
* Rust `&mut ValidateErrorCollector` becomes explicit collector passing:
  every `check` takes the collector and returns the extended collector
  (Rust `Vec::push` appends at the end, embedded as `++ [entry]`).
* Rust `Box<dyn LocaleMessage>` causes are embedded as the closed inductive
  `LocaleMessage` of exactly the cause variants constructed by the embedded
  code paths (the set of causes in the source is closed).
* `isize`/`i64` become `Int`, `usize`/`u32` become `Nat`; no arithmetic in
  the embedded code can overflow a 64-bit machine integer on the inputs of
  the theorems below, and the source performs only comparisons and one
  bounded addition (86400) on these values.
* `Result<T, E>` becomes `Except E T`, `Option` becomes `Option`.
-/

namespace CJV

/-- Embeds `LocaleValue` (src/src/common/locale.rs): String | Uint(usize) |
Int(isize) | Float(f64).  The `float` payload is omitted: no embedded code
path constructs that variant and floating point has no shallow embedding. -/
inductive LocaleValue where
  | str (s : String)
  | uint (n : Nat)
  | int (i : Int)
  | float
  deriving Repr, DecidableEq

/-- Embeds `DateTimeKind` (src/src/base/date_time/data.rs). -/
inductive DateTimeKind where
  | date
  | dateTime
  | dateTimeNaive
  | time
  deriving Repr, DecidableEq

/-- Embeds `DateTimeData` (src/src/base/date_time/data.rs):
kind tag, display string, `i64` primary stamp, `u32` nanosecond remainder. -/
structure DateTimeData where
  kind : DateTimeKind
  date_formatted : String
  timestamp_seconds_days : Int
  subsec_nano : Nat
  deriving Repr, DecidableEq

/-- Embeds `DateTimeData::default()` (derived `Default`): default kind is
`DateTime` (the `#[default]` variant), empty string, zero stamps. -/
def DateTimeData.defaultData : DateTimeData :=
  { kind := .dateTime, date_formatted := "", timestamp_seconds_days := 0, subsec_nano := 0 }

/-- Embeds the `PartialOrd` of `DateTimeData`: lexicographic comparison of
`(timestamp_seconds_days, subsec_nano)`, ignoring `kind` and
`date_formatted`.  `a.ltb b` is Rust `a < b`; Rust `a > b` is `b.ltb a`. -/
def DateTimeData.ltb (a b : DateTimeData) : Bool :=
  a.timestamp_seconds_days < b.timestamp_seconds_days ||
    (a.timestamp_seconds_days == b.timestamp_seconds_days && a.subsec_nano < b.subsec_nano)

/-- Closed inductive of the `LocaleMessage` cause values constructed by the
embedded rules (src: `StringMandatoryLocale`, `StringLengthLocale`,
`StringSpecialCharLocale`, `NumberMandatoryLocale`, `NumberRangeLocale`,
`DateTimeMandatoryLocale`, `DateTimeRangeLocale`, `EmailAddressLocale`). -/
inductive LocaleMessage where
  | stringMandatory
  | lengthMin (min : Nat)
  | lengthMax (max : Nat)
  | specialChars
  | upperAndLower
  | upper
  | lower
  | digit
  | numberMandatory
  | numberMin (v : LocaleValue)
  | numberMax (v : LocaleValue)
  | dateTimeMandatory
  | dateTimeMin (d : DateTimeData)
  | dateTimeMax (d : DateTimeData)
  | emailInvalid
  | emailDoesNotMatch
  deriving Repr, DecidableEq

/-- One collector entry: `(original message, cause)`
(src/src/common/locale.rs `ValidateErrorCollector`). -/
abbrev ErrorEntry := String × LocaleMessage

/-- Embeds `ValidateErrorCollector`: append-only ordered list of entries. -/
abbrev ValidateErrorCollector := List ErrorEntry

/-- Embeds `ValidateErrorStore`: immutable snapshot of a collector
(src/src/common/locale.rs, `impl Into<ValidateErrorStore>`). -/
structure ValidateErrorStore where
  entries : List ErrorEntry
  deriving Repr, DecidableEq

/-- Embeds `ValidateErrorStore::as_original_message_vec`: the ordered list of
the raw message strings. -/
def ValidateErrorStore.as_original_message_vec (s : ValidateErrorStore) : List String :=
  s.entries.map Prod.fst

/-- The byte stream fed to the blake3 hasher by `ValidateErrorStore::hash`
(src/src/common/locale.rs lines 258-264): `hasher.update(error.0.as_bytes())`
for each entry in order, i.e. the messages' UTF-8 bytes back-to-back with no
separator.  UTF-8 encoding is concatenation-homomorphic, so the stream is the
UTF-8 encoding of the concatenation of the message strings, embedded here as
that concatenation. -/
def ValidateErrorStore.hashInput (s : ValidateErrorStore) : String :=
  String.join s.as_original_message_vec

/-- Embeds `PartialEq for ValidateErrorStore` (src/src/common/locale.rs lines
201-205): `self.hash() == other.hash()` where `hash` is blake3 of
`hashInput`.  blake3 is a fixed pure function of its input stream, so the
comparison is `h a.hashInput = h b.hashInput` for the particular function
`h = blake3`; the definition is parametrized by an arbitrary `h` and the
theorems below hold for every `h`, hence for blake3. -/
def storeEqWithHash {α : Type} (h : String → α) (a b : ValidateErrorStore) : Prop :=
  h a.hashInput = h b.hashInput

/-- Embeds `StringValidator` (src/src/common/string_validator.rs): the
borrowed string plus the precomputed grapheme count. -/
structure StringValidator where
  str : String
  graphemeCount : Nat
  deriving Repr, DecidableEq

/-- Modelled from the spec: `count_graphemes` delegates to the external
`unicode_segmentation` crate (`s.graphemes(true).count()`), which is not part
of this repository's source.  Per the spec (§4.1) it returns the Unicode
grapheme-cluster count.  Model: one cluster per code point, which agrees with
UAX #29 extended grapheme clusters for strings containing no combining marks,
ZWJ, regional indicators or other extenders — all strings this development
evaluates it on are of that form (ASCII and plain Greek letters). -/
def countGraphemes (s : String) : Nat :=
  s.length

/-- Embeds `StringValidator::new` / `as_string_validator`: wraps the string
with its precomputed grapheme count. -/
def asStringValidator (s : String) : StringValidator :=
  ⟨s, countGraphemes s⟩

/-- Embeds `StringValidator::is_empty`: grapheme count is zero. -/
def StringValidator.isEmptyV (v : StringValidator) : Bool :=
  v.graphemeCount == 0

/-- Embeds `StringValidator::SPECIAL_CHARS`: the fixed table of 30 ASCII
punctuation/symbol characters. -/
def SPECIAL_CHARS : List Char :=
  ['!', '@', '#', '$', '%', '^', '&', '*', '(', ')', '-', '_', '=', '+',
   '[', ']', Char.ofNat 123, Char.ofNat 125, Char.ofNat 92, '|', ';', ':',
   Char.ofNat 39, Char.ofNat 34, ',', '.', '<', '>', '/', '?']

/-- Embeds `StringValidator::has_special_chars`. -/
def StringValidator.hasSpecialChars (v : StringValidator) : Bool :=
  v.str.toList.any (fun c => SPECIAL_CHARS.contains c)

/-- Embeds `StringValidator::has_ascii_uppercase` (`char::is_ascii_uppercase`
is exactly `A`..`Z`, as is Lean's `Char.isUpper`). -/
def StringValidator.hasAsciiUppercase (v : StringValidator) : Bool :=
  v.str.toList.any (fun c => c.isUpper)

/-- Embeds `StringValidator::has_ascii_lowercase` (`a`..`z`). -/
def StringValidator.hasAsciiLowercase (v : StringValidator) : Bool :=
  v.str.toList.any (fun c => c.isLower)

/-- Embeds `StringValidator::has_ascii_uppercase_and_lowercase`. -/
def StringValidator.hasAsciiUppercaseAndLowercase (v : StringValidator) : Bool :=
  v.hasAsciiUppercase && v.hasAsciiLowercase

/-- Embeds `StringValidator::has_ascii_digit` (`0`..`9`). -/
def StringValidator.hasAsciiDigit (v : StringValidator) : Bool :=
  v.str.toList.any (fun c => c.isDigit)

/-- Embeds `StringMandatoryRules` (src/src/base/string_rules.rs). -/
structure StringMandatoryRules where
  is_mandatory : Bool

/-- Embeds `StringMandatoryRules::check` (src/src/base/string_rules.rs lines
73-81): push `"Cannot be empty"` iff mandatory and the subject is empty. -/
def StringMandatoryRules.check (r : StringMandatoryRules)
    (messages : ValidateErrorCollector) (subject : StringValidator) :
    ValidateErrorCollector :=
  if r.is_mandatory && subject.isEmptyV then
    messages ++ [("Cannot be empty", .stringMandatory)]
  else
    messages

/-- Embeds `StringLengthRules` (src/src/base/string_rules.rs). -/
structure StringLengthRules where
  min_length : Option Nat
  max_length : Option Nat

/-- Embeds `StringLengthRules::check` (src/src/base/string_rules.rs lines
186-204): compares the grapheme count against each configured bound
independently. -/
def StringLengthRules.check (r : StringLengthRules)
    (messages : ValidateErrorCollector) (subject : StringValidator) :
    ValidateErrorCollector :=
  let messages :=
    match r.min_length with
    | some min_length =>
      if subject.graphemeCount < min_length then
        messages ++ [(s!"Must be at least {min_length} characters", .lengthMin min_length)]
      else messages
    | none => messages
  match r.max_length with
  | some max_length =>
    if subject.graphemeCount > max_length then
      messages ++ [(s!"Must be at most {max_length} characters", .lengthMax max_length)]
    else messages
  | none => messages

/-- Embeds `StringSpecialCharRules` (src/src/base/string_rules.rs). -/
structure StringSpecialCharRules where
  must_have_uppercase : Bool
  must_have_lowercase : Bool
  must_have_special_chars : Bool
  must_have_digit : Bool

/-- Embeds `StringSpecialCharRules::check` (src/src/base/string_rules.rs
lines 358-401): special-chars check, then the case check with the combined
tie-break (if both case flags are set a single combined check runs; else each
set flag runs its own check), then the digit check. -/
def StringSpecialCharRules.check (r : StringSpecialCharRules)
    (messages : ValidateErrorCollector) (subject : StringValidator) :
    ValidateErrorCollector :=
  let messages :=
    if r.must_have_special_chars then
      if !subject.hasSpecialChars then
        messages ++ [("Must contain at least one special character", .specialChars)]
      else messages
    else messages
  let messages :=
    if r.must_have_uppercase && r.must_have_lowercase then
      if !subject.hasAsciiUppercaseAndLowercase then
        messages ++ [("Must contain at least one uppercase and lowercase letter", .upperAndLower)]
      else messages
    else
      let messages :=
        if r.must_have_uppercase then
          if !subject.hasAsciiUppercase then
            messages ++ [("Must contain at least one uppercase letter", .upper)]
          else messages
        else messages
      if r.must_have_lowercase then
        if !subject.hasAsciiLowercase then
          messages ++ [("Must contain at least one lowercase letter", .lower)]
        else messages
      else messages
  if r.must_have_digit then
    if !subject.hasAsciiDigit then
      messages ++ [("Must contain at least one digit", .digit)]
    else messages
  else messages

/-- Embeds `NumberMandatoryRules` (src/src/base/number_rules.rs). -/
structure NumberMandatoryRules where
  is_mandatory : Bool

/-- Embeds `NumberMandatoryRules::check` (src/src/base/number_rules.rs lines
68-79), at the `isize` instance used by `Integer`. -/
def NumberMandatoryRules.check (r : NumberMandatoryRules)
    (messages : ValidateErrorCollector) (subject : Option Int) :
    ValidateErrorCollector :=
  if r.is_mandatory && subject.isNone then
    messages ++ [("Cannot be empty", .numberMandatory)]
  else messages

/-- Embeds `NumberRangeRules<T>` (src/src/base/number_rules.rs) at the
`isize` instance used by `Integer` (`T = isize`, so `Int` here;
`T::default() = 0`, `Display` prints decimal digits with a leading `-` for
negatives, exactly `toString (i : Int)`). -/
structure NumberRangeRules where
  min : Option Int
  max : Option Int

/-- Embeds `NumberRangeRules::check` (src/src/base/number_rules.rs lines
200-219): both bound checks run unconditionally on a present subject; the
absent subject is replaced by `T::default()` but `is_some` guards every
push. `NumberRangeLocale::MinValue(min.into())` is `.numberMin (.int min)`
at the `isize` instance. -/
def NumberRangeRules.check (r : NumberRangeRules)
    (messages : ValidateErrorCollector) (subject : Option Int) :
    ValidateErrorCollector :=
  let is_some := subject.isSome
  let subj := subject.getD 0
  let messages :=
    match r.min with
    | some min =>
      if is_some && subj < min then
        messages ++ [(s!"Must be at least {min}", .numberMin (.int min))]
      else messages
    | none => messages
  match r.max with
  | some max =>
    if is_some && subj > max then
      messages ++ [(s!"Must be at most {max}", .numberMax (.int max))]
    else messages
  | none => messages

/-- Embeds `NameRules` (src/src/types/name.rs). -/
structure NameRules where
  is_mandatory : Bool
  min_length : Option Nat
  max_length : Option Nat

/-- Embeds `Default for NameRules` (src/src/types/name.rs lines 13-21):
mandatory, min 5, max 20. -/
def NameRules.defaultRules : NameRules :=
  { is_mandatory := true, min_length := some 5, max_length := some 20 }

/-- Embeds `NameRules::check` (src/src/types/name.rs lines 42-57): skip
everything when optional and absent; run the mandatory rule; stop if it
pushed anything; else run the length rule. -/
def NameRules.check (r : NameRules) (messages : ValidateErrorCollector)
    (subject : StringValidator) (is_none : Bool) : ValidateErrorCollector :=
  if !r.is_mandatory && is_none then
    messages
  else
    let messages := StringMandatoryRules.check ⟨r.is_mandatory⟩ messages subject
    if !messages.isEmpty then
      messages
    else
      StringLengthRules.check ⟨r.min_length, r.max_length⟩ messages subject

/-- Embeds `NameError` (src/src/types/name.rs): a named wrapper around the
store. -/
structure NameError where
  store : ValidateErrorStore
  deriving Repr, DecidableEq

/-- Embeds `Name` (src/src/types/name.rs): the validated string plus the
"input was absent" flag. -/
structure Name where
  val : String
  is_none : Bool
  deriving Repr, DecidableEq

/-- Embeds `Name::parse_custom` (src/src/types/name.rs lines 80-88),
inlining `ValidationCheck::validate_check`
(src/src/common/validation_check.rs lines 46-52: empty collector is success,
else the collector becomes the error's store). -/
def Name.parse_custom (s : Option String) (rules : NameRules) :
    Except NameError Name :=
  let is_none := s.isNone
  let s := s.getD ""
  let subject := asStringValidator s
  let messages := rules.check [] subject is_none
  if messages.isEmpty then
    .ok ⟨s, is_none⟩
  else
    .error ⟨⟨messages⟩⟩

/-- Embeds `Name::parse`: `parse_custom` with the default rules. -/
def Name.parse (s : Option String) : Except NameError Name :=
  Name.parse_custom s NameRules.defaultRules

/-- Embeds `Name::into_option` (src/src/types/name.rs lines 98-100). -/
def Name.into_option (n : Name) : Option Name :=
  if n.is_none then none else some n

/-- Embeds `IntegerRules` (src/src/types/numbers/integer.rs). -/
structure IntegerRules where
  is_mandatory : Bool
  min : Option Int
  max : Option Int

/-- Embeds `Default for IntegerRules` (src/src/types/numbers/integer.rs
lines 11-19): mandatory, min 0, max 255. -/
def IntegerRules.defaultRules : IntegerRules :=
  { is_mandatory := true, min := some 0, max := some 255 }

/-- Embeds `IntegerRules::check` (src/src/types/numbers/integer.rs lines
40-50): skip everything when optional and absent; mandatory rule; stop on any
message; else the range rule. -/
def IntegerRules.check (r : IntegerRules) (messages : ValidateErrorCollector)
    (subject : Option Int) : ValidateErrorCollector :=
  if !r.is_mandatory && subject.isNone then
    messages
  else
    let messages := NumberMandatoryRules.check ⟨r.is_mandatory⟩ messages subject
    if !messages.isEmpty then
      messages
    else
      NumberRangeRules.check ⟨r.min, r.max⟩ messages subject

/-- Embeds `IntegerError` (src/src/types/numbers/integer.rs). -/
structure IntegerError where
  store : ValidateErrorStore
  deriving Repr, DecidableEq

/-- Embeds `Integer` (src/src/types/numbers/integer.rs): the validated value
plus the "input was absent" flag. -/
structure Integer where
  val : Int
  is_none : Bool
  deriving Repr, DecidableEq

/-- Embeds `Integer::parse_custom` (src/src/types/numbers/integer.rs lines
66-72), inlining `validate_check`. -/
def Integer.parse_custom (s : Option Int) (rules : IntegerRules) :
    Except IntegerError Integer :=
  let is_none := s.isNone
  let messages := rules.check [] s
  if messages.isEmpty then
    .ok ⟨s.getD 0, is_none⟩
  else
    .error ⟨⟨messages⟩⟩

/-- Embeds `Integer::parse`. -/
def Integer.parse (s : Option Int) : Except IntegerError Integer :=
  Integer.parse_custom s IntegerRules.defaultRules

/-- Embeds `Integer::into_option`. -/
def Integer.into_option (i : Integer) : Option Integer :=
  if i.is_none then none else some i

/-- Modelled from the spec: the address-parsing collaborator
(`email_address_parser::EmailAddress::parse`, an external crate absent from
this repository's source).  Spec §6: "given a raw string, return a structured
address/URL or a parse failure"; scenario D fixes `parse "test"` to fail and
`parse "test@example.com"` to succeed.  Model: accept exactly the strings of
the form `local@domain` with a single `@` and nonempty local and domain
parts; in particular the empty string is rejected (it is not an address). -/
def emailAddressParse (s : String) : Option String :=
  let cs := s.toList
  if cs.count '@' == 1 && cs.head? != some '@' && cs.getLast? != some '@' then
    some s
  else
    none

/-- Embeds `EmailRules` (src/src/types/email.rs). -/
structure EmailRules where
  is_mandatory : Bool

/-- Embeds `EmailRules::check` (src/src/types/email.rs lines 31-42): skip
when optional and absent, else the string mandatory rule. -/
def EmailRules.check (r : EmailRules) (messages : ValidateErrorCollector)
    (subject : StringValidator) (is_none : Bool) : ValidateErrorCollector :=
  if !r.is_mandatory && is_none then
    messages
  else
    StringMandatoryRules.check ⟨r.is_mandatory⟩ messages subject

/-- Embeds `EmailError` (src/src/types/email.rs). -/
structure EmailError where
  store : ValidateErrorStore
  deriving Repr, DecidableEq

/-- Embeds `Email` (src/src/types/email.rs): the optional parsed address plus
the "input was absent" flag. -/
structure Email where
  address : Option String
  is_none : Bool
  deriving Repr, DecidableEq

/-- Embeds `Email::parse_custom` (src/src/types/email.rs lines 85-106):
rule check on the defaulted string, then — unconditionally, even for an
absent optional input — the external address parse of that string, whose
failure becomes the single-entry `"Invalid Email"` error. -/
def Email.parse_custom (s : Option String) (rules : EmailRules) :
    Except EmailError Email :=
  let is_none := s.isNone
  let s := s.getD ""
  let subject := asStringValidator s
  let messages := rules.check [] subject is_none
  if messages.isEmpty then
    match emailAddressParse s with
    | some email => .ok ⟨some email, is_none⟩
    | none => .error ⟨⟨[("Invalid Email", .emailInvalid)]⟩⟩
  else
    .error ⟨⟨messages⟩⟩

/-- Embeds `Email::parse`: default rules are `{ is_mandatory: true }`. -/
def Email.parse (s : Option String) : Except EmailError Email :=
  Email.parse_custom s ⟨true⟩

/-- Embeds `Email::into_option` (src/src/types/email.rs lines 132-134). -/
def Email.into_option (e : Email) : Option Email :=
  if e.is_none then none else some e

/-- Embeds `DateTimeMandatoryRules` (date_time/rules.rs). -/
structure DateTimeMandatoryRules where
  is_mandatory : Bool

/-- Embeds `DateTimeMandatoryRules::check` (date_time/rules.rs lines 53-60). -/
def DateTimeMandatoryRules.check (r : DateTimeMandatoryRules)
    (messages : ValidateErrorCollector) (subject : Option DateTimeData) :
    ValidateErrorCollector :=
  if r.is_mandatory && subject.isNone then
    messages ++ [("Cannot be empty", .dateTimeMandatory)]
  else messages

/-- Embeds `DateTimeRangeRules` (date_time/rules.rs). -/
structure DateTimeRangeRules where
  min : Option DateTimeData
  max : Option DateTimeData

/-- Embeds `DateTimeRangeRules::check`
(src/cjtoolkit-structured-validator/src/base/date_time/rules.rs lines
177-197): plain dual-bound check with NO max adjustment; both failure
messages interpolate the SUBJECT's `date_formatted`, while the causes carry
the bounds. -/
def DateTimeRangeRules.check (r : DateTimeRangeRules)
    (messages : ValidateErrorCollector) (subject : Option DateTimeData) :
    ValidateErrorCollector :=
  let is_some := subject.isSome
  let subj := subject.getD DateTimeData.defaultData
  let messages :=
    match r.min with
    | some min =>
      if is_some && subj.ltb min then
        let f := subj.date_formatted
        messages ++ [(s!"Must be after \x27{f}\x27", .dateTimeMin min)]
      else messages
    | none => messages
  match r.max with
  | some max =>
    if is_some && max.ltb subj then
      let f := subj.date_formatted
      messages ++ [(s!"Must be before \x27{f}\x27", .dateTimeMax max)]
    else messages
  | none => messages

/-- Embeds `DateTimeRangeRules::check_time`
(src/cjtoolkit-structured-validator/src/base/date_time/rules.rs lines
200-232): like `check`, except that when both bounds are configured and the
literal max is below the min, the max's `timestamp_seconds_days` is pushed
forward by `24 * 60 * 60` seconds before the comparison, and the adjusted max
is what the pushed cause carries.  The failure messages interpolate the
SUBJECT's `date_formatted`. -/
def DateTimeRangeRules.check_time (r : DateTimeRangeRules)
    (messages : ValidateErrorCollector) (subject : Option DateTimeData) :
    ValidateErrorCollector :=
  let is_some := subject.isSome
  let subj := subject.getD DateTimeData.defaultData
  let messages :=
    match r.min with
    | some min =>
      if is_some && subj.ltb min then
        let f := subj.date_formatted
        messages ++ [(s!"Must be after \x27{f}\x27", .dateTimeMin min)]
      else messages
    | none => messages
  match r.max with
  | some max0 =>
    let max :=
      match r.min with
      | some min =>
        if max0.ltb min then
          { max0 with timestamp_seconds_days := max0.timestamp_seconds_days + 24 * 60 * 60 }
        else max0
      | none => max0
    if is_some && max.ltb subj then
      let f := subj.date_formatted
      messages ++ [(s!"Must be before \x27{f}\x27", .dateTimeMax max)]
    else messages
  | none => messages

/-- Models `chrono::NaiveTime` restricted to whole seconds (every time the
claims mention is a whole-second time with zero nanoseconds). -/
structure NaiveTime where
  hour : Nat
  minute : Nat
  second : Nat
  deriving Repr, DecidableEq

/-- Two-digit zero padding, as in chrono's `%H`/`%M`/`%S`. -/
def pad2 (n : Nat) : String :=
  if n < 10 then "0" ++ toString n else toString n

/-- Modelled from the spec: `chrono::NaiveTime`'s `Display` (external crate)
prints `HH:MM:SS` with a fractional suffix only when the nanosecond part is
nonzero; the modelled times are whole seconds, so `HH:MM:SS`. -/
def NaiveTime.toFormatted (t : NaiveTime) : String :=
  pad2 t.hour ++ ":" ++ pad2 t.minute ++ ":" ++ pad2 t.second

/-- Modelled from the spec: `chrono::NaiveTime::num_seconds_from_midnight`
(external crate): seconds since midnight. -/
def NaiveTime.secondsFromMidnight (t : NaiveTime) : Nat :=
  t.hour * 3600 + t.minute * 60 + t.second

/-- Embeds `impl AsDateTimeData for NaiveTime`
(src/src/base/date_time/data.rs lines 166-175): kind `Time`, the `Display`
string, seconds from midnight, nanosecond remainder (zero here).  With no
custom format, `(None, &t).as_date_time_data()` is exactly this. -/
def NaiveTime.asDateTimeData (t : NaiveTime) : DateTimeData :=
  { kind := .time
    date_formatted := t.toFormatted
    timestamp_seconds_days := (t.secondsFromMidnight : Int)
    subsec_nano := 0 }

/-- Embeds `TimeRules`
(src/cjtoolkit-structured-validator/src/types/times_chrono/time.rs). -/
structure TimeRules where
  is_mandatory : Bool
  min : Option NaiveTime
  max : Option NaiveTime

/-- Embeds `TimeRules::check` (time.rs lines 76-92), with `date_format =
None`: skip when optional and absent; convert bounds and subject to
`DateTimeData`; mandatory rule; stop on any message; else `check_time`. -/
def TimeRules.check (r : TimeRules) (subject : Option NaiveTime)
    (messages : ValidateErrorCollector) : ValidateErrorCollector :=
  if !r.is_mandatory && subject.isNone then
    messages
  else
    let subjectData := subject.map NaiveTime.asDateTimeData
    let range : DateTimeRangeRules :=
      ⟨r.min.map NaiveTime.asDateTimeData, r.max.map NaiveTime.asDateTimeData⟩
    let messages := DateTimeMandatoryRules.check ⟨r.is_mandatory⟩ messages subjectData
    if !messages.isEmpty then
      messages
    else
      range.check_time messages subjectData

/-- The five possible entries of `StringSpecialCharRules::check` in source
push order: special-chars, combined case, upper-only, lower-only, digit. -/
def specialCharMasterList : List ErrorEntry :=
  [("Must contain at least one special character", .specialChars),
   ("Must contain at least one uppercase and lowercase letter", .upperAndLower),
   ("Must contain at least one uppercase letter", .upper),
   ("Must contain at least one lowercase letter", .lower),
   ("Must contain at least one digit", .digit)]

/-- Recognizes the case-requirement entries (combined, upper-only,
lower-only) among the entries `StringSpecialCharRules::check` can push. -/
def isCaseEntry (e : ErrorEntry) : Bool :=
  match e.2 with
  | .upperAndLower => true
  | .upper => true
  | .lower => true
  | _ => false

/-!  ## Theorems settling the claims  -/

/-- **C1** (mandatory short-circuit): for every `NameRules` configuration
with `is_mandatory = true` and absent input, `Name::parse_custom` returns an
error whose message list is exactly `["Cannot be empty"]`, regardless of the
configured length bounds — the mandatory failure short-circuits the length
rule; in particular `Name::parse(None)` under the default rules
(mandatory, min 5, max 20) errors with that single message. -/
theorem mandatory_short_circuit_name (mn mx : Option Nat) :
    Name.parse_custom none ⟨true, mn, mx⟩ =
      .error ⟨⟨[("Cannot be empty", .stringMandatory)]⟩⟩ ∧
    Name.parse none = .error ⟨⟨[("Cannot be empty", .stringMandatory)]⟩⟩ :=
  ⟨rfl, rfl⟩

/-- **C2** (optional absence is valid): with `is_mandatory = false` and
absent raw input, the rule-check phase appends no messages at all — for
`NameRules` and `IntegerRules` alike, whatever bounds are configured — and
the parses succeed with the absent flag set. -/
theorem optional_absent_skips_checks (mn mx : Option Nat) (imn imx : Option Int) :
    NameRules.check ⟨false, mn, mx⟩ [] (asStringValidator "") true = [] ∧
    IntegerRules.check ⟨false, imn, imx⟩ [] none = [] ∧
    Name.parse_custom none ⟨false, mn, mx⟩ = .ok ⟨"", true⟩ ∧
    Integer.parse_custom none ⟨false, imn, imx⟩ = .ok ⟨0, true⟩ :=
  ⟨rfl, rfl, rfl, rfl⟩

/-- **C3** (dual independent bounds): for `NumberRangeRules` with
`min = some m`, `max = some M`, `m ≤ M`, and a present subject `s`: no
message when `m ≤ s ≤ M`; exactly the one "Must be at least m" message when
`s < m`; exactly the one "Must be at most M" message when `s > M`. -/
theorem number_range_dual_bounds (m M s : Int) (hmM : m ≤ M) :
    (m ≤ s → s ≤ M → NumberRangeRules.check ⟨some m, some M⟩ [] (some s) = []) ∧
    (s < m → NumberRangeRules.check ⟨some m, some M⟩ [] (some s) =
      [(s!"Must be at least {m}", .numberMin (.int m))]) ∧
    (M < s → NumberRangeRules.check ⟨some m, some M⟩ [] (some s) =
      [(s!"Must be at most {M}", .numberMax (.int M))]) := by
  refine ⟨?_, ?_, ?_⟩
  · intro h1 h2
    simp [NumberRangeRules.check, not_lt.mpr h1, not_lt.mpr h2]
  · intro h
    have h2 : ¬ M < s := by omega
    simp [NumberRangeRules.check, h, h2]
  · intro h
    have h1 : ¬ s < m := by omega
    simp [NumberRangeRules.check, h, h1]

/-- Witness for C3 at the spec's E2E scenario C input: default `Integer`
bounds `min = 0`, `max = 255` and subject `-50` produce exactly the
"Must be at least 0" message. -/
theorem number_range_dual_bounds_witness :
    NumberRangeRules.check ⟨some 0, some 255⟩ [] (some (-50)) =
      [("Must be at least 0", .numberMin (.int 0))] :=
  (number_range_dual_bounds 0 255 (-50) (by decide)).2.1 (by decide)

/-- **C4** (misconfigured bounds both fire): with `min = some m`,
`max = some M`, `M < m`, and a present subject strictly between them
(`M < s < m`), both the "Must be at least" and the "Must be at most" message
are appended in the same call, in that order — nothing suppresses either. -/
theorem number_range_misconfigured_both_fire (m M s : Int)
    (h1 : M < s) (h2 : s < m) :
    NumberRangeRules.check ⟨some m, some M⟩ [] (some s) =
      [(s!"Must be at least {m}", .numberMin (.int m)),
       (s!"Must be at most {M}", .numberMax (.int M))] := by
  simp [NumberRangeRules.check, h1, h2]

/-- Witness for C4: `min = 10`, `max = 0`, subject `5` fires both messages. -/
theorem number_range_misconfigured_both_fire_witness :
    NumberRangeRules.check ⟨some 10, some 0⟩ [] (some 5) =
      [("Must be at least 10", .numberMin (.int 10)),
       ("Must be at most 0", .numberMax (.int 0))] :=
  number_range_misconfigured_both_fire 10 0 5 (by decide) (by decide)

/-- **C5 counterexample**: in the ordinary window `min = 09:00`,
`max = 17:00`, a subject of `18:00` does fail, but the failure message is
`"Must be before '18:00:00'"` — `check_time` interpolates the SUBJECT's
formatted value into the message, not the max bound — so the message list is
not the claimed `["must be before 17:00"]`. -/
theorem time_range_message_counterexample :
    (TimeRules.check ⟨true, some ⟨9, 0, 0⟩, some ⟨17, 0, 0⟩⟩ (some ⟨18, 0, 0⟩) []).map
        Prod.fst = ["Must be before \x2718:00:00\x27"] ∧
    "must be before 17:00" ∉
      (TimeRules.check ⟨true, some ⟨9, 0, 0⟩, some ⟨17, 0, 0⟩⟩ (some ⟨18, 0, 0⟩) []).map
        Prod.fst := by
  constructor
  · rfl
  · decide

/-- **C5 amended**: `check_time` with `min = 21:00`, `max = 06:00` (literal
max below min) pushes the max bound forward by exactly `24*60*60 = 86400`
seconds before comparing — the adjusted-max cause carries
`21600 + 86400` — so a subject of `23:30` passes while `10:00` fails (on the
min bound, message `"Must be after '10:00:00'"`); the plain `check` path has
no such adjustment and fails `23:30` against the literal `06:00` max.  In
the ordinary window `min = 09:00`, `max = 17:00` (no adjustment), `10:00`
passes and `18:00` fails with the message `"Must be before '18:00:00'"`
(the subject's formatted value, with the max bound in the cause). -/
theorem time_wraparound_amended :
    DateTimeRangeRules.check_time
        ⟨some (NaiveTime.asDateTimeData ⟨21, 0, 0⟩), some (NaiveTime.asDateTimeData ⟨6, 0, 0⟩)⟩
        [] (some (NaiveTime.asDateTimeData ⟨23, 30, 0⟩)) = [] ∧
    DateTimeRangeRules.check_time
        ⟨some (NaiveTime.asDateTimeData ⟨21, 0, 0⟩), some (NaiveTime.asDateTimeData ⟨6, 0, 0⟩)⟩
        [] (some (NaiveTime.asDateTimeData ⟨10, 0, 0⟩)) =
      [("Must be after \x2710:00:00\x27", .dateTimeMin (NaiveTime.asDateTimeData ⟨21, 0, 0⟩))] ∧
    DateTimeRangeRules.check_time
        ⟨some (NaiveTime.asDateTimeData ⟨21, 0, 0⟩), some (NaiveTime.asDateTimeData ⟨6, 0, 0⟩)⟩
        [] (some ⟨.time, "T", 21600 + 86400, 0⟩) = [] ∧
    DateTimeRangeRules.check_time
        ⟨some (NaiveTime.asDateTimeData ⟨21, 0, 0⟩), some (NaiveTime.asDateTimeData ⟨6, 0, 0⟩)⟩
        [] (some ⟨.time, "T", 21600 + 86400 + 1, 0⟩) =
      [("Must be before \x27T\x27",
        .dateTimeMax { kind := .time, date_formatted := "06:00:00",
                       timestamp_seconds_days := 21600 + 86400, subsec_nano := 0 })] ∧
    DateTimeRangeRules.check
        ⟨some (NaiveTime.asDateTimeData ⟨21, 0, 0⟩), some (NaiveTime.asDateTimeData ⟨6, 0, 0⟩)⟩
        [] (some (NaiveTime.asDateTimeData ⟨23, 30, 0⟩)) =
      [("Must be before \x2723:30:00\x27", .dateTimeMax (NaiveTime.asDateTimeData ⟨6, 0, 0⟩))] ∧
    TimeRules.check ⟨true, some ⟨9, 0, 0⟩, some ⟨17, 0, 0⟩⟩ (some ⟨10, 0, 0⟩) [] = [] ∧
    TimeRules.check ⟨true, some ⟨9, 0, 0⟩, some ⟨17, 0, 0⟩⟩ (some ⟨18, 0, 0⟩) [] =
      [("Must be before \x2718:00:00\x27", .dateTimeMax (NaiveTime.asDateTimeData ⟨17, 0, 0⟩))] := by
  exact ⟨rfl, rfl, rfl, rfl, rfl, rfl, rfl⟩

/-- **C6 counterexample**: `Email::parse_custom(None, { is_mandatory: false })`
does NOT return Ok — the address parse of the defaulted empty string still
runs and fails, so the result is an error with the single message
`"Invalid Email"`. -/
theorem email_absent_optional_counterexample :
    Email.parse_custom none ⟨false⟩ =
      .error ⟨⟨[("Invalid Email", .emailInvalid)]⟩⟩ :=
  rfl

/-- **C6 amended**: for wrapper types whose `parse_custom` consists of rule
checks only (`Name`, `Integer`), an absent input under non-mandatory rules
yields Ok with the absent flag set, and `into_option` restores `None`; but
`Email::parse_custom(None, non-mandatory)` returns an error with the single
message `"Invalid Email"`, because the address parser is still applied to
the defaulted empty string. -/
theorem absent_optional_amended (mn mx : Option Nat) (imn imx : Option Int) :
    Name.parse_custom none ⟨false, mn, mx⟩ = .ok ⟨"", true⟩ ∧
    Name.into_option ⟨"", true⟩ = none ∧
    Integer.parse_custom none ⟨false, imn, imx⟩ = .ok ⟨0, true⟩ ∧
    Integer.into_option ⟨0, true⟩ = none ∧
    Email.parse_custom none ⟨false⟩ =
      .error ⟨⟨[("Invalid Email", .emailInvalid)]⟩⟩ :=
  ⟨rfl, rfl, rfl, rfl, rfl⟩

/-- **C7** (store equality by content): two stores whose ordered original
message lists coincide are equal under the store comparison — which hashes
only the concatenated message strings — whatever their cause objects are,
and for every hash function `h` (in particular blake3). -/
theorem store_equality_by_content {α : Type} (h : String → α)
    (a b : ValidateErrorStore)
    (hmsg : a.as_original_message_vec = b.as_original_message_vec) :
    storeEqWithHash h a b := by
  unfold storeEqWithHash ValidateErrorStore.hashInput
  rw [hmsg]

/-- Witness for C7: two single-entry stores with the same message
`"Cannot be empty"` but distinct causes (`stringMandatory` vs `lengthMin 5`)
compare equal. -/
theorem store_equality_by_content_witness :
    (LocaleMessage.stringMandatory ≠ LocaleMessage.lengthMin 5) ∧
    storeEqWithHash (fun s => s)
      ⟨[("Cannot be empty", .stringMandatory)]⟩
      ⟨[("Cannot be empty", .lengthMin 5)]⟩ :=
  ⟨by decide, store_equality_by_content (fun s => s) _ _ (by decide)⟩

/-- **C10** (no separator between hashed messages): the stores with message
lists `["ab", "c"]` and `["a", "bc"]` have different ordered message
sequences, yet the byte streams fed to the hasher coincide (`"abc"`), so for
every hash function `h` — in particular blake3 — the stores compare equal. -/
theorem store_hash_ignores_boundaries {α : Type} (h : String → α) :
    ValidateErrorStore.as_original_message_vec
        ⟨[("ab", .stringMandatory), ("c", .stringMandatory)]⟩ ≠
      ValidateErrorStore.as_original_message_vec
        ⟨[("a", .stringMandatory), ("bc", .stringMandatory)]⟩ ∧
    storeEqWithHash h ⟨[("ab", .stringMandatory), ("c", .stringMandatory)]⟩
      ⟨[("a", .stringMandatory), ("bc", .stringMandatory)]⟩ :=
  ⟨by decide, congrArg h (by decide)⟩

/-- Normal form of `StringSpecialCharRules::check`: the pushed entries are
the special-chars part, then the case part (combined when both flags are
set, else the individually flagged checks), then the digit part, appended to
the incoming collector in that order. -/
theorem special_char_check_decomp (r : StringSpecialCharRules)
    (c : ValidateErrorCollector) (v : StringValidator) :
    r.check c v = c ++
      (if r.must_have_special_chars && !v.hasSpecialChars then
        [("Must contain at least one special character", .specialChars)] else []) ++
      (if r.must_have_uppercase && r.must_have_lowercase then
        (if !(v.hasAsciiUppercase && v.hasAsciiLowercase) then
          [("Must contain at least one uppercase and lowercase letter", .upperAndLower)]
         else [])
       else
        (if r.must_have_uppercase && !v.hasAsciiUppercase then
          [("Must contain at least one uppercase letter", .upper)] else []) ++
        (if r.must_have_lowercase && !v.hasAsciiLowercase then
          [("Must contain at least one lowercase letter", .lower)] else [])) ++
      (if r.must_have_digit && !v.hasAsciiDigit then
        [("Must contain at least one digit", .digit)] else []) := by
  rcases r with ⟨mu, ml, msc, md⟩
  cases hs : v.hasSpecialChars <;> cases hu : v.hasAsciiUppercase <;>
    cases hl : v.hasAsciiLowercase <;> cases hd : v.hasAsciiDigit <;>
    cases mu <;> cases ml <;> cases msc <;> cases md <;>
    simp [StringSpecialCharRules.check, StringValidator.hasAsciiUppercaseAndLowercase,
      hs, hu, hl, hd]

/-- **C8** (special-char rule shape): every `StringSpecialCharRules::check`
call appends at most 3 messages, in the fixed source order special-chars ≤
case ≤ digit (the result is a sublist of the ordered master list); and when
both case flags are set and the subject has neither case, the case portion
is exactly the one combined message — never the two separate ones. -/
theorem special_char_rule_properties (r : StringSpecialCharRules)
    (v : StringValidator) :
    ((r.check [] v).length ≤ 3) ∧
    List.Sublist (r.check [] v) specialCharMasterList ∧
    (r.must_have_uppercase = true → r.must_have_lowercase = true →
      v.hasAsciiUppercase = false → v.hasAsciiLowercase = false →
      (r.check [] v).filter isCaseEntry =
        [("Must contain at least one uppercase and lowercase letter", .upperAndLower)]) := by
  have hdec := special_char_check_decomp r [] v
  refine ⟨?_, ?_, ?_⟩
  · rw [hdec]
    split_ifs <;> simp_all
  · rw [hdec]
    split_ifs <;> decide
  · intro hmu hml hhu hhl
    rw [hdec]
    simp only [hmu, hml, hhu, hhl, Bool.and_self, if_true, Bool.not_false]
    split_ifs <;> simp [isCaseEntry]

/-- Witness for C8: all four flags set against the empty subject — the case
portion of the result is exactly the combined message. -/
theorem special_char_rule_properties_witness :
    (StringSpecialCharRules.check ⟨true, true, true, true⟩ []
        (asStringValidator "")).filter isCaseEntry =
      [("Must contain at least one uppercase and lowercase letter", .upperAndLower)] :=
  (special_char_rule_properties ⟨true, true, true, true⟩
    (asStringValidator "")).2.2 rfl rfl rfl rfl

/-- **C9** (grapheme-aware length): `StringLengthRules::check` compares the
subject's precomputed grapheme-cluster count against the bounds — so any
subject with grapheme count 5 satisfies `min_length = some 5` (no min-length
message), even when its byte length exceeds 5. -/
theorem grapheme_length_rule (v : StringValidator) (mx : Option Nat)
    (h5 : v.graphemeCount = 5) (_hb : 5 < v.str.utf8ByteSize) :
    ("Must be at least 5 characters", LocaleMessage.lengthMin 5) ∉
      StringLengthRules.check ⟨some 5, mx⟩ [] v := by
  cases mx <;> simp [StringLengthRules.check, h5]

/-- Witness for C9: the string of five two-byte Greek letters has grapheme
count 5 and byte length 10, and triggers no min-length message against
`min_length = some 5`. -/
theorem grapheme_length_rule_witness :
    (asStringValidator "ααααα").graphemeCount = 5 ∧
    5 < (asStringValidator "ααααα").str.utf8ByteSize ∧
    ("Must be at least 5 characters", LocaleMessage.lengthMin 5) ∉
      StringLengthRules.check ⟨some 5, none⟩ [] (asStringValidator "ααααα") :=
  ⟨by decide, by decide, grapheme_length_rule _ none (by decide) (by decide)⟩

end CJV
